import Mathlib

/-!
PortfolioBackend: the `POST /contact` handler of `src/index.js`

A shallow embedding of the request handler (validation, store write, mail
send, response) together with the part of the JavaScript semantics that the
handler relies on: truthiness, string conversion, the `length` property, the
comparison with `1000`, and the matching of the e-mail regular expression.
-/

namespace PortfolioBackend

/-! ## JavaScript strings -/

/-- A JavaScript string is its sequence of UTF-16 code units. -/
abbrev JSString := List Nat

/-- UTF-16 encoding of one Unicode scalar value. -/
def utf16 (c : Char) : List Nat :=
  if c.toNat < 0x10000 then [c.toNat]
  else [0xD800 + (c.toNat - 0x10000) / 0x400, 0xDC00 + (c.toNat - 0x10000) % 0x400]

/-- The JavaScript string denoted by a source literal. -/
def str (s : String) : JSString :=
  s.toList.foldr (fun c acc => utf16 c ++ acc) []

/-- Number of Unicode characters (code points) of a string: a high surrogate
followed by a low surrogate is one character, every other code unit is one
character. The handler itself never computes this; it is the measure the
specification speaks of. -/
def codePointCount : JSString → Nat
  | [] => 0
  | [_] => 1
  | a :: b :: rest =>
    if 0xD800 ≤ a ∧ a < 0xDC00 ∧ 0xDC00 ≤ b ∧ b < 0xE000 then codePointCount rest + 1
    else codePointCount (b :: rest) + 1

/-! ## Regular expressions -/

/-- Regular expressions over code units, with character classes. -/
inductive Regex where
  | none
  | eps
  | cls (p : Nat → Bool)
  | alt (r s : Regex)
  | seq (r s : Regex)
  | star (r : Regex)

namespace Regex

/-- One or more repetitions, the quantifier `+`. -/
def plus (r : Regex) : Regex := seq r (star r)

/-- Whether the expression matches the empty string. -/
def nullable : Regex → Bool
  | none => false
  | eps => true
  | cls _ => false
  | alt r s => nullable r || nullable s
  | seq r s => nullable r && nullable s
  | star _ => true

/-- Derivative with respect to the code unit `c`. -/
def deriv (c : Nat) : Regex → Regex
  | none => none
  | eps => none
  | cls p => if p c then eps else none
  | alt r s => alt (deriv c r) (deriv c s)
  | seq r s => if nullable r then alt (seq (deriv c r) s) (deriv c s) else seq (deriv c r) s
  | star r => seq (deriv c r) (star r)

/-- Whether the whole input is matched by the expression (an expression
anchored by `^` and `$`, without the multiline flag). -/
def test : Regex → JSString → Bool
  | r, [] => nullable r
  | r, c :: cs => test (deriv c r) cs

end Regex

/-- The class `\s` of ECMAScript: white space and line terminators. -/
def isWhiteSpace (c : Nat) : Bool :=
  c = 0x09 || c = 0x0A || c = 0x0B || c = 0x0C || c = 0x0D || c = 0x20 || c = 0xA0 ||
  c = 0x1680 || (0x2000 ≤ c && c ≤ 0x200A) || c = 0x2028 || c = 0x2029 || c = 0x202F ||
  c = 0x205F || c = 0x3000 || c = 0xFEFF

/-- The class `[^\s@]`. -/
def notSpaceAt (c : Nat) : Bool := !(isWhiteSpace c || c = 64)

/-- The expression `/^[^\s@]+@[^\s@]+\.[^\s@]+$/` of `validateEmail`. -/
def regex : Regex :=
  .seq (.plus (.cls notSpaceAt))
    (.seq (.cls (fun c => c = 64))
      (.seq (.plus (.cls notSpaceAt))
        (.seq (.cls (fun c => c = 46))
          (.plus (.cls notSpaceAt)))))

/-! ## JavaScript values -/

deriving instance DecidableEq for Except

/-- The exception the handler can meet: every throw in the modelled fragment
is a `TypeError`. -/
inductive JSError where
  | typeError
  deriving DecidableEq, Repr

/-- A value obtained by `JSON.parse`, or `undefined` for a property that is
not there. A number is kept as the text of its JSON literal: IEEE-754
arithmetic is not represented, the `Engine` answers for it. -/
inductive JSValue where
  | undefined
  | null
  | boolean (b : Bool)
  | number (literal : JSString)
  | string (s : JSString)
  | array (items : List JSValue)
  | object (props : List (JSString × JSValue))

/-- The numeric side of the JavaScript engine, reached only at values that
are not strings. -/
structure Engine where
  /-- Whether the number is `+0` or `-0` (a JSON number is never `NaN`). -/
  numberIsZero : JSString → Bool
  /-- Result of `Number::toString`. -/
  numberToString : JSString → JSString
  /-- Whether the number is greater than `1000`. -/
  numberGt1000 : JSString → Bool
  /-- Whether `ToNumber` of the string is greater than `1000`. -/
  stringGt1000 : JSString → Bool

/-- Own-property lookup in a parsed JSON object; `undefined` when absent.
None of the names read by the handler exists on `Object.prototype`. -/
def get (props : List (JSString × JSValue)) (key : JSString) : JSValue :=
  match props.lookup key with
  | some v => v
  | none => .undefined

/-- Whether the object has an own property of that name. -/
def hasOwn (props : List (JSString × JSValue)) (key : JSString) : Bool :=
  (props.lookup key).isSome

/-- The abstract operation `ToBoolean`. -/
def ToBoolean (E : Engine) : JSValue → Bool
  | .undefined => false
  | .null => false
  | .boolean b => b
  | .number n => !E.numberIsZero n
  | .string s => !s.isEmpty
  | .array _ => true
  | .object _ => true

/-- Whether the value is `undefined` or `null`. -/
def isNullish : JSValue → Bool
  | .undefined => true
  | .null => true
  | _ => false

/-- Concatenation of the parts with a comma between neighbours. -/
def joinWithComma : List JSString → JSString
  | [] => []
  | [a] => a
  | a :: b :: rest => a ++ str "," ++ joinWithComma (b :: rest)

mutual
/-- The abstract operation `ToString`. An array goes through
`Array.prototype.join`; an object parsed from JSON has no callable property,
so an own `toString` shadows `Object.prototype.toString` and the conversion
throws, and otherwise the result is `[object Object]`. -/
def ToString (E : Engine) : JSValue → Except JSError JSString
  | .undefined => .ok (str "undefined")
  | .null => .ok (str "null")
  | .boolean b => .ok (if b then str "true" else str "false")
  | .number n => .ok (E.numberToString n)
  | .string s => .ok s
  | .array items =>
    match elementStrings E items with
    | .ok parts => .ok (joinWithComma parts)
    | .error e => .error e
  | .object props =>
    if hasOwn props (str "toString") then .error .typeError else .ok (str "[object Object]")
termination_by structural v => v
/-- The strings that `Array.prototype.join` concatenates: `null` and
`undefined` elements contribute the empty string, the others their
`ToString`. -/
def elementStrings (E : Engine) : List JSValue → Except JSError (List JSString)
  | [] => .ok []
  | v :: rest =>
    match (if isNullish v then .ok [] else ToString E v), elementStrings E rest with
    | .ok a, .ok parts => .ok (a :: parts)
    | _, _ => .error .typeError
termination_by structural vs => vs
end

/-- The comparison `v > 1000` for a value that is not known to be a number:
`undefined` converts to `NaN`, `null` and the booleans to `0` or `1`, a string
through `ToNumber`, an array or object through its primitive value, which is
the result of `ToString` since `Object.prototype.valueOf` returns the object
itself. -/
def gt1000 (E : Engine) : JSValue → Except JSError Bool
  | .undefined => .ok false
  | .null => .ok false
  | .boolean _ => .ok false
  | .number n => .ok (E.numberGt1000 n)
  | .string s => .ok (E.stringGt1000 s)
  | v =>
    match ToString E v with
    | .ok s => .ok (E.stringGt1000 s)
    | .error e => .error e

/-- The expression `message.length > 1000`. The `length` of a string is its
number of code units and that of an array its number of elements; a boolean
or a number has none, and `undefined > 1000` is false; an object has the
`length` it was given, if any. Reading a property of `undefined` or `null`
throws. -/
def lengthGt1000 (E : Engine) : JSValue → Except JSError Bool
  | .undefined => .error .typeError
  | .null => .error .typeError
  | .boolean _ => .ok false
  | .number _ => .ok false
  | .string s => .ok (decide (s.length > 1000))
  | .array items => .ok (decide (items.length > 1000))
  | .object props => gt1000 E (get props (str "length"))

/-! ## The handler -/

/-- The function `validateEmail`: `regex.test(email)` converts its argument
to a string and matches it. -/
def validateEmail (E : Engine) (email : JSValue) : Except JSError Bool :=
  match ToString E email with
  | .ok s => .ok (regex.test s)
  | .error e => .error e

/-- Result of the three checks at the head of the handler. -/
inductive ValidationResult where
  | valid
  | invalid (reason : JSString)
  deriving DecidableEq, Repr

/-- Lines 78 to 92 of the handler: the destructuring of `req.body` and the
three guarded early returns; `invalid reason` stands for the early return
with status 400 and that reason, `valid` for falling through to the `try`
block. -/
def validate (E : Engine) (body : List (JSString × JSValue)) :
    Except JSError ValidationResult :=
  let name := get body (str "name")
  let email := get body (str "email")
  let subject := get body (str "subject")
  let message := get body (str "message")
  if !ToBoolean E name || !ToBoolean E email || !ToBoolean E subject || !ToBoolean E message then
    .ok (.invalid (str "All fields are required"))
  else
    match validateEmail E email with
    | .error e => .error e
    | .ok false => .ok (.invalid (str "Invalid email format"))
    | .ok true =>
      match lengthGt1000 E message with
      | .error e => .error e
      | .ok true => .ok (.invalid (str "Message must be less than 1000 characters"))
      | .ok false => .ok .valid

/-- The environment variables read by the handler. -/
structure Config where
  FROM_EMAIL_USER : JSString
  TO_EMAIL_USER : JSString
  deriving DecidableEq, Repr

/-- A document of `messageSchema`: the four fields handed to the constructor
and the `date`, which defaults to `Date.now`. -/
structure Message where
  name : JSValue
  subject : JSValue
  email : JSValue
  message : JSValue
  date : Nat

/-- The object `mailOptions`. -/
structure MailOptions where
  mailFrom : JSString
  mailTo : JSString
  subject : JSString
  text : JSString
  deriving DecidableEq, Repr

/-- The calls the handler makes on its two collaborators. -/
inductive Effect where
  | save (doc : Message)
  | sendMail (mail : MailOptions)

/-- The JSON body of a response: an object with the single key `error` or
`message`. -/
inductive ResponseBody where
  | error (text : JSString)
  | message (text : JSString)
  deriving DecidableEq, Repr

/-- What `res.status(..).json(..)` writes. -/
structure Response where
  status : Nat
  body : ResponseBody
  deriving DecidableEq, Repr

/-- One run of the handler: the response written, if any (none when the
handler threw outside its `try` block), and the calls made, in order. -/
structure Run where
  response : Option Response
  trace : List Effect

/-- Lines 101 to 106: the template literals convert each value to a string,
`subject` first. -/
def mailOptions (E : Engine) (cfg : Config) (name email subject message : JSValue) :
    Except JSError MailOptions :=
  match ToString E subject, ToString E name, ToString E email, ToString E message with
  | .ok s, .ok n, .ok e, .ok m =>
    .ok { mailFrom := cfg.FROM_EMAIL_USER
          mailTo := cfg.TO_EMAIL_USER
          subject := str "New : " ++ s
          text := str "Subject: " ++ s ++ str "\nName: " ++ n ++ str "\nEmail: " ++ e
                    ++ str "\nMessage: " ++ m }
  | _, _, _, _ => .error .typeError

/-- The response of the `catch` block. -/
def serverError : Response := ⟨500, .error (str "Server error")⟩

/-- The handler of `POST /contact`. `save` and `sendMail` say whether the
store write and the mail send of this run succeed, `now` is the clock read by
the `date` default. -/
def postContact (E : Engine) (cfg : Config) (save : Message → Bool)
    (sendMail : MailOptions → Bool) (now : Nat) (body : List (JSString × JSValue)) : Run :=
  match validate E body with
  | .error _ => ⟨none, []⟩
  | .ok (.invalid reason) => ⟨some ⟨400, .error reason⟩, []⟩
  | .ok .valid =>
    let name := get body (str "name")
    let email := get body (str "email")
    let subject := get body (str "subject")
    let message := get body (str "message")
    let newMessage : Message := ⟨name, subject, email, message, now⟩
    if save newMessage then
      match mailOptions E cfg name email subject message with
      | .error _ => ⟨some serverError, [.save newMessage]⟩
      | .ok mail =>
        if sendMail mail then
          ⟨some ⟨200, .message (str "Message sent successfully!")⟩,
            [.save newMessage, .sendMail mail]⟩
        else ⟨some serverError, [.save newMessage, .sendMail mail]⟩
    else ⟨some serverError, [.save newMessage]⟩

/-! ## Notions of the specification -/

/-- A field that the specification calls missing: absent, `null` or the
empty string. -/
def missingOrEmpty : JSValue → Bool
  | .undefined => true
  | .null => true
  | .string s => s.isEmpty
  | _ => false

/-- A field that is absent, `null` or a string: the shapes of the
specification's data model. -/
def textOrMissing : JSValue → Bool
  | .undefined => true
  | .null => true
  | .string _ => true
  | _ => false

/-- The characters of a string field, and nothing for any other value. -/
def textOf : JSValue → JSString
  | .string s => s
  | _ => []

/-- The part of an address after its first `@`. -/
def domainPart (e : JSString) : JSString :=
  (e.dropWhile (fun x => x != 64)).drop 1

/-! ## Concrete inputs -/

/-- An engine for the closed examples; none of them depends on its answers
beyond the ones fixed here. -/
def Engine.sample : Engine := ⟨fun n => n == [48], id, fun _ => false, fun _ => false⟩

/-- A configuration for the closed examples. -/
def sampleConfig : Config := ⟨str "site@example.com", str "owner@example.com"⟩

/-- A request body with the four fields as strings. -/
def submission (name email subject message : JSString) : List (JSString × JSValue) :=
  [(str "name", .string name), (str "email", .string email),
   (str "subject", .string subject), (str "message", .string message)]

/-- Scenario 1 of the specification. -/
def annBody : List (JSString × JSValue) :=
  submission (str "Ann") (str "ann@example.com") (str "Hi") (str "Hello")

/-- A body whose `email` is the JSON object with the single key `toString`. -/
def shadowedBody : List (JSString × JSValue) :=
  [(str "name", .string (str "Ann")), (str "email", .object [(str "toString", .null)]),
   (str "subject", .string (str "Hi")), (str "message", .string (str "Hello"))]

/-! ## Matching lemmas -/

namespace Regex

theorem test_none (x : JSString) : test none x = false := by
  induction x with
  | nil => rfl
  | cons c cs ih => simpa [test, deriv] using ih

theorem test_eps (x : JSString) : test eps x = true ↔ x = [] := by
  cases x with
  | nil => simp [test, nullable]
  | cons c cs => simp [test, deriv, test_none]

theorem test_cls (p : Nat → Bool) (x : JSString) :
    test (cls p) x = true ↔ ∃ c, x = [c] ∧ p c = true := by
  cases x with
  | nil => simp [test, nullable]
  | cons c cs =>
    by_cases h : p c = true
    · simp only [test, deriv, h, if_true, test_eps, List.cons.injEq]
      constructor
      · rintro rfl
        exact ⟨c, ⟨rfl, rfl⟩, h⟩
      · rintro ⟨d, ⟨-, hcs⟩, -⟩
        exact hcs
    · simp only [test, deriv, h, Bool.false_eq_true, if_false, test_none, List.cons.injEq,
        false_iff]
      rintro ⟨d, ⟨rfl, -⟩, hd⟩
      exact h hd

theorem test_alt (r s : Regex) (x : JSString) :
    test (alt r s) x = (test r x || test s x) := by
  induction x generalizing r s with
  | nil => rfl
  | cons c cs ih => simp [test, deriv, ih]

theorem test_seq (r s : Regex) (x : JSString) :
    test (seq r s) x = true ↔ ∃ t u, x = t ++ u ∧ test r t = true ∧ test s u = true := by
  induction x generalizing r s with
  | nil =>
    constructor
    · intro h
      simp only [test, nullable, Bool.and_eq_true] at h
      exact ⟨[], [], rfl, h.1, h.2⟩
    · rintro ⟨t, u, htu, ht, hu⟩
      obtain ⟨rfl, rfl⟩ := List.append_eq_nil.1 htu.symm
      simp only [test] at ht hu
      simp [test, nullable, ht, hu]
  | cons c cs ih =>
    have step : (∃ t u, cs = t ++ u ∧ test (deriv c r) t = true ∧ test s u = true) ↔
        ∃ t u, c :: cs = t ++ u ∧ t ≠ [] ∧ test r t = true ∧ test s u = true := by
      constructor
      · rintro ⟨t, u, htu, ht, hu⟩
        exact ⟨c :: t, u, by simp [htu], by simp, by simpa [test] using ht, hu⟩
      · rintro ⟨t, u, htu, hne, ht, hu⟩
        cases t with
        | nil => exact absurd rfl hne
        | cons d t =>
          simp only [List.cons_append, List.cons.injEq] at htu
          obtain ⟨rfl, rfl⟩ := htu
          exact ⟨t, u, rfl, by simpa [test] using ht, hu⟩
    by_cases hn : nullable r = true
    · simp only [test, deriv, hn, if_true, test_alt, Bool.or_eq_true, ih, step]
      constructor
      · rintro (⟨t, u, htu, -, ht, hu⟩ | h)
        · exact ⟨t, u, htu, ht, hu⟩
        · exact ⟨[], c :: cs, rfl, by simpa [test] using hn, by simpa [test] using h⟩
      · rintro ⟨t, u, htu, ht, hu⟩
        cases t with
        | nil =>
          right
          simp only [List.nil_append] at htu
          subst htu
          simpa [test] using hu
        | cons d t => exact Or.inl ⟨d :: t, u, htu, by simp, ht, hu⟩
    · have hn0 : nullable r = false := by simpa using hn
      simp only [test, deriv, hn0, Bool.false_eq_true, if_false, ih, step]
      constructor
      · rintro ⟨t, u, htu, -, ht, hu⟩
        exact ⟨t, u, htu, ht, hu⟩
      · rintro ⟨t, u, htu, ht, hu⟩
        cases t with
        | nil => exact absurd (by simpa [test] using ht) hn
        | cons d t => exact ⟨d :: t, u, htu, by simp, ht, hu⟩

theorem test_star_cls (p : Nat → Bool) (x : JSString) :
    test (star (cls p)) x = true ↔ ∀ c ∈ x, p c = true := by
  induction x with
  | nil => simp [test, nullable]
  | cons c cs ih =>
    simp only [test, deriv, test_seq, List.mem_cons, forall_eq_or_imp]
    by_cases h : p c = true
    · simp only [h, if_true, test_eps, true_and]
      constructor
      · rintro ⟨t, u, htu, rfl, hu⟩
        exact ih.1 (by simpa [htu] using hu)
      · intro hall
        exact ⟨[], cs, rfl, rfl, ih.2 hall⟩
    · simp [h, test_none]

theorem test_plus_cls (p : Nat → Bool) (x : JSString) :
    test (plus (cls p)) x = true ↔ x ≠ [] ∧ ∀ c ∈ x, p c = true := by
  simp only [plus, test_seq, test_cls, test_star_cls]
  constructor
  · rintro ⟨t, u, rfl, ⟨c, rfl, hc⟩, hu⟩
    refine ⟨by simp, ?_⟩
    intro d hd
    simp only [List.singleton_append, List.mem_cons] at hd
    rcases hd with rfl | hd
    · exact hc
    · exact hu d hd
  · rintro ⟨hne, hall⟩
    cases x with
    | nil => exact absurd rfl hne
    | cons c cs =>
      exact ⟨[c], cs, rfl, ⟨c, rfl, hall c (by simp)⟩, fun d hd => hall d (by simp [hd])⟩

end Regex

/-- The strings matched by the e-mail expression: `A@B.C` with `A`, `B`, `C`
non-empty and free of white space and of `@`. -/
theorem regex_test_iff (e : JSString) :
    regex.test e = true ↔
      ∃ a b c, e = a ++ 64 :: (b ++ 46 :: c) ∧
        (a ≠ [] ∧ ∀ x ∈ a, notSpaceAt x = true) ∧
        (b ≠ [] ∧ ∀ x ∈ b, notSpaceAt x = true) ∧
        (c ≠ [] ∧ ∀ x ∈ c, notSpaceAt x = true) := by
  simp only [regex, Regex.test_seq, Regex.test_plus_cls, Regex.test_cls]
  constructor
  · rintro ⟨a, u1, rfl, ha, t2, u2, rfl, ⟨x, rfl, hx⟩, b, u3, rfl, hb, t4, c, rfl, ⟨y, rfl, hy⟩, hc⟩
    simp only [decide_eq_true_eq] at hx hy
    subst hx hy
    exact ⟨a, b, c, by simp, ha, hb, hc⟩
  · rintro ⟨a, b, c, rfl, ha, hb, hc⟩
    exact ⟨a, _, rfl, ha, [64], _, rfl, ⟨64, rfl, by simp⟩, b, _, rfl, hb, [46], c, rfl,
      ⟨46, rfl, by simp⟩, hc⟩

theorem notSpaceAt_iff (x : Nat) :
    notSpaceAt x = true ↔ isWhiteSpace x = false ∧ x ≠ 64 := by
  simp [notSpaceAt]

theorem validateEmail_string (E : Engine) (e : JSString) :
    validateEmail E (.string e) = .ok (regex.test e) := rfl

/-- The e-mail expression in the words of the specification: no white space,
exactly one `@` with something before it, and after it a `.` with something
on both sides. -/
theorem regex_test_iff_shape (e : JSString) :
    regex.test e = true ↔
      (∀ x ∈ e, isWhiteSpace x = false) ∧ e.count 64 = 1 ∧
        ∃ l d, e = l ++ 64 :: d ∧ l ≠ [] ∧ ∃ b c, d = b ++ 46 :: c ∧ b ≠ [] ∧ c ≠ [] := by
  rw [regex_test_iff]
  constructor
  · rintro ⟨a, b, c, rfl, ⟨ha, ha2⟩, ⟨hb, hb2⟩, ⟨hc, hc2⟩⟩
    have na : ∀ x ∈ a, x ≠ 64 := fun x hx => ((notSpaceAt_iff x).1 (ha2 x hx)).2
    have nb : ∀ x ∈ b, x ≠ 64 := fun x hx => ((notSpaceAt_iff x).1 (hb2 x hx)).2
    have nc : ∀ x ∈ c, x ≠ 64 := fun x hx => ((notSpaceAt_iff x).1 (hc2 x hx)).2
    refine ⟨?_, ?_, a, b ++ 46 :: c, rfl, ha, b, c, rfl, hb, hc⟩
    · intro x hx
      simp only [List.mem_append, List.mem_cons] at hx
      rcases hx with hx | rfl | hx | rfl | hx
      · exact ((notSpaceAt_iff x).1 (ha2 x hx)).1
      · decide
      · exact ((notSpaceAt_iff x).1 (hb2 x hx)).1
      · decide
      · exact ((notSpaceAt_iff x).1 (hc2 x hx)).1
    · have c1 : a.count 64 = 0 := List.count_eq_zero.2 (fun h => na 64 h rfl)
      have c2 : b.count 64 = 0 := List.count_eq_zero.2 (fun h => nb 64 h rfl)
      have c3 : c.count 64 = 0 := List.count_eq_zero.2 (fun h => nc 64 h rfl)
      simp [List.count_append, List.count_cons, c1, c2, c3]
  · rintro ⟨hws, hcount, l, d, rfl, hl, b, c, rfl, hb, hc⟩
    simp only [List.count_append, List.count_cons, beq_self_eq_true, if_true] at hcount
    have c1 : l.count 64 = 0 := by omega
    have c2 : b.count 64 = 0 := by omega
    have c3 : c.count 64 = 0 := by omega
    have key : ∀ (p : List Nat), p.count 64 = 0 → (∀ x ∈ p, isWhiteSpace x = false) →
        ∀ x ∈ p, notSpaceAt x = true := by
      intro p hp hw x hx
      refine (notSpaceAt_iff x).2 ⟨hw x hx, ?_⟩
      rintro rfl
      exact List.count_eq_zero.1 hp hx
    refine ⟨l, b, c, rfl, ⟨hl, key l c1 ?_⟩, ⟨hb, key b c2 ?_⟩, ⟨hc, key c c3 ?_⟩⟩
    · exact fun x hx => hws x (by simp [hx])
    · exact fun x hx => hws x (by simp [hx])
    · exact fun x hx => hws x (by simp [hx])

/-! ## The validation checks -/

theorem ToBoolean_of_textOrMissing (E : Engine) (v : JSValue) (h : textOrMissing v = true) :
    ToBoolean E v = !missingOrEmpty v := by
  cases v <;> simp_all [textOrMissing, ToBoolean, missingOrEmpty]

theorem string_of_present (v : JSValue) (h : textOrMissing v = true)
    (hp : missingOrEmpty v = false) : v = .string (textOf v) := by
  cases v <;> simp_all [textOrMissing, missingOrEmpty, textOf]

/-- A run whose validation returns early writes status 400 with the reason
and calls neither collaborator. -/
theorem postContact_of_invalid (E : Engine) (cfg : Config) (save : Message → Bool)
    (sendMail : MailOptions → Bool) (now : Nat) (body : List (JSString × JSValue))
    (reason : JSString) (h : validate E body = .ok (.invalid reason)) :
    postContact E cfg save sendMail now body = ⟨some ⟨400, .error reason⟩, []⟩ := by
  simp [postContact, h]

/-- The presence check comes first and never evaluates anything else. -/
theorem validate_of_falsy (E : Engine) (body : List (JSString × JSValue))
    (h : ToBoolean E (get body (str "name")) = false ∨ ToBoolean E (get body (str "email")) = false ∨
      ToBoolean E (get body (str "subject")) = false ∨
      ToBoolean E (get body (str "message")) = false) :
    validate E body = .ok (.invalid (str "All fields are required")) := by
  unfold validate
  rcases h with h | h | h | h <;> simp [h]

/-- With the four fields truthy, the result is decided by the e-mail check
and then the length check. -/
theorem validate_of_truthy (E : Engine) (body : List (JSString × JSValue))
    (hn : ToBoolean E (get body (str "name")) = true)
    (he : ToBoolean E (get body (str "email")) = true)
    (hs : ToBoolean E (get body (str "subject")) = true)
    (hm : ToBoolean E (get body (str "message")) = true) :
    validate E body =
      match validateEmail E (get body (str "email")) with
      | .error e => .error e
      | .ok false => .ok (.invalid (str "Invalid email format"))
      | .ok true =>
        match lengthGt1000 E (get body (str "message")) with
        | .error e => .error e
        | .ok true => .ok (.invalid (str "Message must be less than 1000 characters"))
        | .ok false => .ok .valid := by
  unfold validate
  simp [hn, he, hs, hm]

theorem missingOrEmpty_falsy (E : Engine) (v : JSValue) (h : missingOrEmpty v = true) :
    ToBoolean E v = false := by
  cases v <;> simp_all [ToBoolean, missingOrEmpty]

/-- On a valid submission the run is the `try` block. -/
theorem postContact_of_valid (E : Engine) (cfg : Config) (save : Message → Bool)
    (sendMail : MailOptions → Bool) (now : Nat) (body : List (JSString × JSValue))
    (h : validate E body = .ok .valid) :
    postContact E cfg save sendMail now body =
      if save ⟨get body (str "name"), get body (str "subject"), get body (str "email"),
          get body (str "message"), now⟩ then
        match mailOptions E cfg (get body (str "name")) (get body (str "email"))
            (get body (str "subject")) (get body (str "message")) with
        | .error _ => ⟨some serverError, [.save ⟨get body (str "name"), get body (str "subject"),
            get body (str "email"), get body (str "message"), now⟩]⟩
        | .ok mail =>
          if sendMail mail then
            ⟨some ⟨200, .message (str "Message sent successfully!")⟩,
              [.save ⟨get body (str "name"), get body (str "subject"), get body (str "email"),
                get body (str "message"), now⟩, .sendMail mail]⟩
          else ⟨some serverError, [.save ⟨get body (str "name"), get body (str "subject"),
            get body (str "email"), get body (str "message"), now⟩, .sendMail mail]⟩
      else ⟨some serverError, [.save ⟨get body (str "name"), get body (str "subject"),
        get body (str "email"), get body (str "message"), now⟩]⟩ := by
  simp [postContact, h]

/-- The run of a valid submission whose four fields are strings. -/
theorem postContact_of_valid_text (E : Engine) (cfg : Config) (save : Message → Bool)
    (sendMail : MailOptions → Bool) (now : Nat) (body : List (JSString × JSValue))
    (n e s m : JSString)
    (hn : get body (str "name") = .string n) (he : get body (str "email") = .string e)
    (hs : get body (str "subject") = .string s) (hm : get body (str "message") = .string m)
    (h : validate E body = .ok .valid) :
    postContact E cfg save sendMail now body =
      if save ⟨.string n, .string s, .string e, .string m, now⟩ then
        if sendMail ⟨cfg.FROM_EMAIL_USER, cfg.TO_EMAIL_USER, str "New : " ++ s,
            str "Subject: " ++ s ++ str "\nName: " ++ n ++ str "\nEmail: " ++ e
              ++ str "\nMessage: " ++ m⟩ then
          ⟨some ⟨200, .message (str "Message sent successfully!")⟩,
            [.save ⟨.string n, .string s, .string e, .string m, now⟩,
             .sendMail ⟨cfg.FROM_EMAIL_USER, cfg.TO_EMAIL_USER, str "New : " ++ s,
              str "Subject: " ++ s ++ str "\nName: " ++ n ++ str "\nEmail: " ++ e
                ++ str "\nMessage: " ++ m⟩]⟩
        else
          ⟨some serverError,
            [.save ⟨.string n, .string s, .string e, .string m, now⟩,
             .sendMail ⟨cfg.FROM_EMAIL_USER, cfg.TO_EMAIL_USER, str "New : " ++ s,
              str "Subject: " ++ s ++ str "\nName: " ++ n ++ str "\nEmail: " ++ e
                ++ str "\nMessage: " ++ m⟩]⟩
      else ⟨some serverError, [.save ⟨.string n, .string s, .string e, .string m, now⟩]⟩ := by
  rw [postContact_of_valid E cfg save sendMail now body h, hn, he, hs, hm]
  rfl

theorem domainPart_append (a d : JSString) (ha : ∀ x ∈ a, x ≠ 64) :
    domainPart (a ++ 64 :: d) = d := by
  induction a with
  | nil => simp [domainPart, List.dropWhile]
  | cons y ys ih =>
    have hy : y ≠ 64 := ha y (by simp)
    have hys : ∀ x ∈ ys, x ≠ 64 := fun x hx => ha x (by simp [hx])
    have hb : (y != 64) = true := by simpa using hy
    have := ih hys
    simp only [domainPart] at this ⊢
    rw [List.cons_append, List.dropWhile_cons, if_pos hb]
    exact this

/-- An address without `@`, without `.` after its first `@`, or with white
space does not match the e-mail expression. -/
theorem regex_test_of_malformed (e : JSString)
    (h : 64 ∉ e ∨ 46 ∉ domainPart e ∨ ∃ x ∈ e, isWhiteSpace x = true) :
    regex.test e = false := by
  cases hr : regex.test e with
  | false => rfl
  | true =>
    exfalso
    obtain ⟨a, b, c, rfl, ⟨-, ha⟩, ⟨-, hb⟩, ⟨-, hc⟩⟩ := (regex_test_iff e).1 hr
    have na : ∀ x ∈ a, x ≠ 64 := fun x hx => ((notSpaceAt_iff x).1 (ha x hx)).2
    rcases h with h | h | ⟨x, hx, hw⟩
    · exact h (by simp)
    · rw [domainPart_append a _ na] at h
      exact h (by simp)
    · have hno := ((regex_test_iff_shape _).1 hr).1 x hx
      rw [hno] at hw
      exact absurd hw (by simp)

theorem codePointCount_le_length (m : JSString) : codePointCount m ≤ m.length := by
  have key : ∀ k (m : JSString), m.length ≤ k → codePointCount m ≤ m.length := by
    intro k
    induction k with
    | zero =>
      intro m hm
      cases m with
      | nil => simp [codePointCount]
      | cons a t => simp at hm
    | succ k ih =>
      intro m hm
      match m, hm with
      | [], _ => simp [codePointCount]
      | [_], _ => simp [codePointCount]
      | a :: b :: rest, hm =>
        simp only [List.length_cons] at hm
        have h1 := ih rest (by omega)
        have h2 := ih (b :: rest) (by simp only [List.length_cons]; omega)
        simp only [List.length_cons] at h2
        simp only [codePointCount, List.length_cons]
        split <;> omega
  exact key m.length m (Nat.le_refl _)

/-- The response of a run is never status 400 once validation has passed. -/
theorem postContact_status_of_valid (E : Engine) (cfg : Config) (save : Message → Bool)
    (sendMail : MailOptions → Bool) (now : Nat) (body : List (JSString × JSValue))
    (h : validate E body = .ok .valid) (reason : JSString) :
    (postContact E cfg save sendMail now body).response ≠ some ⟨400, .error reason⟩ := by
  rw [postContact_of_valid E cfg save sendMail now body h]
  split
  · split
    · simp [serverError]
    · split <;> simp [serverError]
  · simp [serverError]


/-! ## The claims -/

/-- C1, amended: on every submission whose four fields are each absent,
`null` or a string, validation returns a result and never throws, and the
result is the presence failure if a field is missing or empty, otherwise the
e-mail failure if the e-mail does not match the expression, otherwise the
length failure if the message has more than 1000 code units, otherwise
valid. -/
theorem validate_text_fields (E : Engine) (body : List (JSString × JSValue))
    (hn : textOrMissing (get body (str "name")) = true)
    (he : textOrMissing (get body (str "email")) = true)
    (hs : textOrMissing (get body (str "subject")) = true)
    (hm : textOrMissing (get body (str "message")) = true) :
    validate E body = .ok (
      if missingOrEmpty (get body (str "name")) || missingOrEmpty (get body (str "email")) ||
          missingOrEmpty (get body (str "subject")) || missingOrEmpty (get body (str "message"))
      then .invalid (str "All fields are required")
      else if regex.test (textOf (get body (str "email"))) = false
      then .invalid (str "Invalid email format")
      else if (textOf (get body (str "message"))).length > 1000
      then .invalid (str "Message must be less than 1000 characters")
      else .valid) := by
  by_cases hp : (missingOrEmpty (get body (str "name")) || missingOrEmpty (get body (str "email")) ||
      missingOrEmpty (get body (str "subject")) || missingOrEmpty (get body (str "message"))) = true
  · rw [if_pos hp]
    apply validate_of_falsy
    simp only [Bool.or_eq_true] at hp
    rcases hp with ((hp | hp) | hp) | hp
    · exact Or.inl (missingOrEmpty_falsy E _ hp)
    · exact Or.inr (Or.inl (missingOrEmpty_falsy E _ hp))
    · exact Or.inr (Or.inr (Or.inl (missingOrEmpty_falsy E _ hp)))
    · exact Or.inr (Or.inr (Or.inr (missingOrEmpty_falsy E _ hp)))
  · rw [if_neg hp]
    simp only [Bool.or_eq_true, not_or, Bool.not_eq_true] at hp
    obtain ⟨⟨⟨pn, pe⟩, ps⟩, pm⟩ := hp
    rw [validate_of_truthy E body (by simp [ToBoolean_of_textOrMissing E _ hn, pn])
      (by simp [ToBoolean_of_textOrMissing E _ he, pe])
      (by simp [ToBoolean_of_textOrMissing E _ hs, ps])
      (by simp [ToBoolean_of_textOrMissing E _ hm, pm])]
    have he2 := string_of_present _ he pe
    have hm2 := string_of_present _ hm pm
    generalize textOf (get body (str "email")) = e at he2 ⊢
    generalize textOf (get body (str "message")) = m at hm2 ⊢
    rw [he2, hm2]
    simp only [validateEmail_string, lengthGt1000]
    cases hr : regex.test e
    · simp
    · by_cases hl : m.length > 1000
      · simp [hl]
      · simp [hl]

/-- Witness of C1, amended, at scenario 1 of the specification. -/
theorem validate_text_fields_witness :
    validate Engine.sample annBody = .ok .valid :=
  validate_text_fields Engine.sample annBody (by decide) (by decide) (by decide) (by decide)

/-- Counterexample to C1 as stated: on the body whose `email` is an object
with an own `toString` property validation throws a `TypeError`, and the run
writes no response. -/
theorem validate_throws_on_shadowed_toString :
    validate Engine.sample shadowedBody = .error .typeError ∧
      (postContact Engine.sample sampleConfig (fun _ => true) (fun _ => true) 0
        shadowedBody).response = none := by
  decide

/-- C2: a submission that fails validation is answered with status 400 and
the reason of the failing check as `error`, and the run calls neither the
store nor the mail transport, whatever these would have answered. -/
theorem rejected_without_effects (E : Engine) (cfg : Config) (save : Message → Bool)
    (sendMail : MailOptions → Bool) (now : Nat) (body : List (JSString × JSValue))
    (reason : JSString) (h : validate E body = .ok (.invalid reason)) :
    (postContact E cfg save sendMail now body).response = some ⟨400, .error reason⟩ ∧
      (postContact E cfg save sendMail now body).trace = [] := by
  rw [postContact_of_invalid E cfg save sendMail now body reason h]
  exact ⟨rfl, rfl⟩

/-- Witness of C2 at scenario 2 of the specification. -/
theorem rejected_without_effects_witness :
    validate Engine.sample
        (submission (str "Ann") (str "not-an-email") (str "Hi") (str "Hello")) =
        .ok (.invalid (str "Invalid email format")) ∧
      (postContact Engine.sample sampleConfig (fun _ => true) (fun _ => true) 0
        (submission (str "Ann") (str "not-an-email") (str "Hi") (str "Hello"))).response =
        some ⟨400, .error (str "Invalid email format")⟩ ∧
      (postContact Engine.sample sampleConfig (fun _ => true) (fun _ => true) 0
        (submission (str "Ann") (str "not-an-email") (str "Hi") (str "Hello"))).trace = [] :=
  ⟨by decide, rejected_without_effects Engine.sample sampleConfig (fun _ => true) (fun _ => true) 0
    (submission (str "Ann") (str "not-an-email") (str "Hi") (str "Hello"))
    (str "Invalid email format") (by decide)⟩

/-- Shape of every trace: a send is the second effect, right after a save
that succeeded, and a save that failed is the only effect of a run answered
with status 500. -/
theorem trace_shape (E : Engine) (cfg : Config) (save : Message → Bool)
    (sendMail : MailOptions → Bool) (now : Nat) (body : List (JSString × JSValue)) :
    (∀ mail, Effect.sendMail mail ∈ (postContact E cfg save sendMail now body).trace →
      ∃ doc, (postContact E cfg save sendMail now body).trace = [.save doc, .sendMail mail] ∧
        save doc = true) ∧
    (∀ doc, Effect.save doc ∈ (postContact E cfg save sendMail now body).trace →
      save doc = false →
        (postContact E cfg save sendMail now body).response =
            some ⟨500, .error (str "Server error")⟩ ∧
          (postContact E cfg save sendMail now body).trace = [.save doc]) := by
  cases hv : validate E body with
  | error err => simp [postContact, hv]
  | ok r =>
    cases r with
    | invalid reason => simp [postContact_of_invalid E cfg save sendMail now body reason hv]
    | valid =>
      rw [postContact_of_valid E cfg save sendMail now body hv]
      cases hsave : save ⟨get body (str "name"), get body (str "subject"),
          get body (str "email"), get body (str "message"), now⟩
      · simp [hsave, serverError]
      · cases hmail : mailOptions E cfg (get body (str "name")) (get body (str "email"))
            (get body (str "subject")) (get body (str "message")) with
        | error err =>
          simp only [if_true, List.mem_singleton, reduceCtorEq, false_imp_iff, implies_true,
            true_and, Effect.save.injEq]
          rintro doc rfl hdoc
          rw [hsave] at hdoc
          exact absurd hdoc (by simp)
        | ok mail =>
          cases hsend : sendMail mail
          · simp only [hsend, if_true, Bool.false_eq_true, if_false, List.mem_cons, reduceCtorEq,
              Effect.sendMail.injEq, Effect.save.injEq, List.mem_singleton, false_or, or_false,
              List.not_mem_nil]
            constructor
            · rintro m rfl
              exact ⟨_, rfl, hsave⟩
            · rintro doc rfl hdoc
              rw [hsave] at hdoc
              exact absurd hdoc (by simp)
          · simp only [hsend, if_true, List.mem_cons, reduceCtorEq,
              Effect.sendMail.injEq, Effect.save.injEq, List.mem_singleton, false_or, or_false,
              List.not_mem_nil]
            constructor
            · rintro m rfl
              exact ⟨_, rfl, hsave⟩
            · rintro doc rfl hdoc
              rw [hsave] at hdoc
              exact absurd hdoc (by simp)

/-- C3: in every run, whatever the store and the mail transport answer, a
send appears in the trace only right after the save of the same run, and
that save succeeded; a save that failed is the only effect of its run, which
is answered with status 500 and `Server error`. A valid submission is always
saved: when that save fails the response is status 500 with `Server error`
and the trace is the save alone, with no send; when it succeeds and the mail
can be composed, the send follows it. -/
theorem send_only_after_successful_save (E : Engine) (cfg : Config) (save : Message → Bool)
    (sendMail : MailOptions → Bool) (now : Nat) (body : List (JSString × JSValue)) :
    (∀ mail, Effect.sendMail mail ∈ (postContact E cfg save sendMail now body).trace →
      ∃ doc, (postContact E cfg save sendMail now body).trace = [.save doc, .sendMail mail] ∧
        save doc = true) ∧
    (∀ doc, Effect.save doc ∈ (postContact E cfg save sendMail now body).trace →
      save doc = false →
        (postContact E cfg save sendMail now body).response =
            some ⟨500, .error (str "Server error")⟩ ∧
          (postContact E cfg save sendMail now body).trace = [.save doc]) ∧
    (validate E body = .ok .valid →
      save ⟨get body (str "name"), get body (str "subject"), get body (str "email"),
          get body (str "message"), now⟩ = false →
        (postContact E cfg save sendMail now body).response =
            some ⟨500, .error (str "Server error")⟩ ∧
          (postContact E cfg save sendMail now body).trace =
            [.save ⟨get body (str "name"), get body (str "subject"), get body (str "email"),
              get body (str "message"), now⟩]) ∧
    (validate E body = .ok .valid →
      save ⟨get body (str "name"), get body (str "subject"), get body (str "email"),
          get body (str "message"), now⟩ = true →
        ∀ mail, mailOptions E cfg (get body (str "name")) (get body (str "email"))
            (get body (str "subject")) (get body (str "message")) = .ok mail →
          (postContact E cfg save sendMail now body).trace =
            [.save ⟨get body (str "name"), get body (str "subject"), get body (str "email"),
              get body (str "message"), now⟩, .sendMail mail]) := by
  refine ⟨(trace_shape E cfg save sendMail now body).1,
    (trace_shape E cfg save sendMail now body).2, ?_, ?_⟩
  · intro hv hsave
    rw [postContact_of_valid E cfg save sendMail now body hv, hsave]
    exact ⟨rfl, rfl⟩
  · intro hv hsave mail hmail
    rw [postContact_of_valid E cfg save sendMail now body hv, hsave, hmail]
    cases hsend : sendMail mail <;> simp [hsend]

/-- Witness of C3 at scenario 1 with a store that refuses: the run is
answered with status 500 and its trace is the save alone. -/
theorem send_only_after_successful_save_witness :
    validate Engine.sample annBody = .ok .valid ∧
      (postContact Engine.sample sampleConfig (fun _ => false) (fun _ => true) 3
          annBody).response = some ⟨500, .error (str "Server error")⟩ ∧
      (postContact Engine.sample sampleConfig (fun _ => false) (fun _ => true) 3
          annBody).trace =
        [.save ⟨.string (str "Ann"), .string (str "Hi"), .string (str "ann@example.com"),
          .string (str "Hello"), 3⟩] :=
  ⟨by decide, (send_only_after_successful_save Engine.sample sampleConfig (fun _ => false)
    (fun _ => true) 3 annBody).2.2.1 (by decide) rfl⟩

/-- A body with the four fields of scenario 1 and a `date` of its own. -/
def datedBody : List (JSString × JSValue) :=
  (str "date", .string (str "1999-12-31")) :: annBody

/-- C4: for a valid submission with string fields whose save and send both
succeed, the trace is exactly one save followed by exactly one send; the
saved document carries the four fields of the submission and the clock
reading as `date`, whatever else the body holds; the mail goes from the
configured sender to the configured recipient with subject `New : ` followed
by the submission's subject and a text containing subject, name, e-mail and
message verbatim; the response is status 200 with
`Message sent successfully!`. -/
theorem accepted_run (E : Engine) (cfg : Config) (save : Message → Bool)
    (sendMail : MailOptions → Bool) (now : Nat) (body : List (JSString × JSValue))
    (n e s m : JSString)
    (hn : get body (str "name") = .string n) (he : get body (str "email") = .string e)
    (hs : get body (str "subject") = .string s) (hm : get body (str "message") = .string m)
    (h : validate E body = .ok .valid)
    (hsave : save ⟨.string n, .string s, .string e, .string m, now⟩ = true)
    (hsend : sendMail ⟨cfg.FROM_EMAIL_USER, cfg.TO_EMAIL_USER, str "New : " ++ s,
      str "Subject: " ++ s ++ str "\nName: " ++ n ++ str "\nEmail: " ++ e
        ++ str "\nMessage: " ++ m⟩ = true) :
    ∃ mail : MailOptions,
      (postContact E cfg save sendMail now body).trace =
          [.save ⟨.string n, .string s, .string e, .string m, now⟩, .sendMail mail] ∧
        (postContact E cfg save sendMail now body).response =
          some ⟨200, .message (str "Message sent successfully!")⟩ ∧
        mail.mailFrom = cfg.FROM_EMAIL_USER ∧ mail.mailTo = cfg.TO_EMAIL_USER ∧
        mail.subject = str "New : " ++ s ∧
        s <:+: mail.text ∧ n <:+: mail.text ∧ e <:+: mail.text ∧ m <:+: mail.text := by
  refine ⟨⟨cfg.FROM_EMAIL_USER, cfg.TO_EMAIL_USER, str "New : " ++ s,
      str "Subject: " ++ s ++ str "\nName: " ++ n ++ str "\nEmail: " ++ e
        ++ str "\nMessage: " ++ m⟩, ?_, ?_, rfl, rfl, rfl, ?_, ?_, ?_, ?_⟩
  · rw [postContact_of_valid_text E cfg save sendMail now body n e s m hn he hs hm h, if_pos hsave,
      if_pos hsend]
  · rw [postContact_of_valid_text E cfg save sendMail now body n e s m hn he hs hm h, if_pos hsave,
      if_pos hsend]
  · exact ⟨str "Subject: ", str "\nName: " ++ n ++ str "\nEmail: " ++ e ++ str "\nMessage: " ++ m,
      by simp⟩
  · exact ⟨str "Subject: " ++ s ++ str "\nName: ", str "\nEmail: " ++ e ++ str "\nMessage: " ++ m,
      by simp⟩
  · exact ⟨str "Subject: " ++ s ++ str "\nName: " ++ n ++ str "\nEmail: ", str "\nMessage: " ++ m,
      by simp⟩
  · exact ⟨str "Subject: " ++ s ++ str "\nName: " ++ n ++ str "\nEmail: " ++ e ++ str "\nMessage: ",
      [], by simp⟩

/-- Witness of C4 on a body that carries a `date` of its own. -/
theorem accepted_run_witness :
    validate Engine.sample datedBody = .ok .valid ∧
      ∃ mail : MailOptions,
        (postContact Engine.sample sampleConfig (fun _ => true) (fun _ => true) 42
            datedBody).trace =
          [.save ⟨.string (str "Ann"), .string (str "Hi"), .string (str "ann@example.com"),
            .string (str "Hello"), 42⟩, .sendMail mail] ∧
        (postContact Engine.sample sampleConfig (fun _ => true) (fun _ => true) 42
            datedBody).response = some ⟨200, .message (str "Message sent successfully!")⟩ ∧
        mail.mailFrom = sampleConfig.FROM_EMAIL_USER ∧ mail.mailTo = sampleConfig.TO_EMAIL_USER ∧
        mail.subject = str "New : " ++ str "Hi" ∧
        str "Hi" <:+: mail.text ∧ str "Ann" <:+: mail.text ∧
        str "ann@example.com" <:+: mail.text ∧ str "Hello" <:+: mail.text :=
  ⟨by decide, accepted_run Engine.sample sampleConfig (fun _ => true) (fun _ => true) 42 datedBody
    (str "Ann") (str "ann@example.com") (str "Hi") (str "Hello") rfl rfl rfl rfl (by decide)
    rfl rfl⟩

/-- C5, amended: for a valid submission with string fields whose save
succeeds, the response is the 200 success response exactly when the mail
send succeeds as well; when the send fails the response is status 500 with
`Server error`. -/
theorem accepted_iff_send_succeeds (E : Engine) (cfg : Config) (save : Message → Bool)
    (sendMail : MailOptions → Bool) (now : Nat) (body : List (JSString × JSValue))
    (n e s m : JSString)
    (hn : get body (str "name") = .string n) (he : get body (str "email") = .string e)
    (hs : get body (str "subject") = .string s) (hm : get body (str "message") = .string m)
    (h : validate E body = .ok .valid)
    (hsave : save ⟨.string n, .string s, .string e, .string m, now⟩ = true) :
    ((postContact E cfg save sendMail now body).response =
        some ⟨200, .message (str "Message sent successfully!")⟩ ↔
      sendMail ⟨cfg.FROM_EMAIL_USER, cfg.TO_EMAIL_USER, str "New : " ++ s,
        str "Subject: " ++ s ++ str "\nName: " ++ n ++ str "\nEmail: " ++ e
          ++ str "\nMessage: " ++ m⟩ = true) ∧
    (sendMail ⟨cfg.FROM_EMAIL_USER, cfg.TO_EMAIL_USER, str "New : " ++ s,
        str "Subject: " ++ s ++ str "\nName: " ++ n ++ str "\nEmail: " ++ e
          ++ str "\nMessage: " ++ m⟩ = false →
      (postContact E cfg save sendMail now body).response =
        some ⟨500, .error (str "Server error")⟩) := by
  rw [postContact_of_valid_text E cfg save sendMail now body n e s m hn he hs hm h, if_pos hsave]
  cases hsend : sendMail ⟨cfg.FROM_EMAIL_USER, cfg.TO_EMAIL_USER, str "New : " ++ s,
      str "Subject: " ++ s ++ str "\nName: " ++ n ++ str "\nEmail: " ++ e
        ++ str "\nMessage: " ++ m⟩
  · simp [serverError]
  · simp

/-- Witness of C5, amended, at scenario 1 with a store that accepts and a
transport that refuses. -/
theorem accepted_iff_send_succeeds_witness :
    validate Engine.sample annBody = .ok .valid ∧
      (((postContact Engine.sample sampleConfig (fun _ => true) (fun _ => false) 0
            annBody).response = some ⟨200, .message (str "Message sent successfully!")⟩ ↔
          (fun _ => false : MailOptions → Bool) ⟨sampleConfig.FROM_EMAIL_USER,
            sampleConfig.TO_EMAIL_USER, str "New : " ++ str "Hi",
            str "Subject: " ++ str "Hi" ++ str "\nName: " ++ str "Ann" ++ str "\nEmail: "
              ++ str "ann@example.com" ++ str "\nMessage: " ++ str "Hello"⟩ = true) ∧
        ((fun _ => false : MailOptions → Bool) ⟨sampleConfig.FROM_EMAIL_USER,
            sampleConfig.TO_EMAIL_USER, str "New : " ++ str "Hi",
            str "Subject: " ++ str "Hi" ++ str "\nName: " ++ str "Ann" ++ str "\nEmail: "
              ++ str "ann@example.com" ++ str "\nMessage: " ++ str "Hello"⟩ = false →
          (postContact Engine.sample sampleConfig (fun _ => true) (fun _ => false) 0
            annBody).response = some ⟨500, .error (str "Server error")⟩)) :=
  ⟨by decide, accepted_iff_send_succeeds Engine.sample sampleConfig (fun _ => true)
    (fun _ => false) 0 annBody (str "Ann") (str "ann@example.com") (str "Hi") (str "Hello")
    rfl rfl rfl rfl (by decide) rfl⟩

/-- Counterexample to C5 as stated: scenario 1 with a store that accepts and
a transport that refuses is answered with status 500, not with the success
response. -/
theorem send_failure_is_not_accepted :
    validate Engine.sample annBody = .ok .valid ∧
      (postContact Engine.sample sampleConfig (fun _ => true) (fun _ => false) 0
        annBody).response = some ⟨500, .error (str "Server error")⟩ ∧
      (postContact Engine.sample sampleConfig (fun _ => true) (fun _ => false) 0
        annBody).response ≠ some ⟨200, .message (str "Message sent successfully!")⟩ := by
  decide

/-- C6: for a valid submission with string fields whose save succeeds and
whose send fails, the response is status 500 with `Server error`, the same
response as when the save fails, and the trace is exactly one save followed
by exactly one send. -/
theorem send_failure_run (E : Engine) (cfg : Config) (save : Message → Bool)
    (sendMail : MailOptions → Bool) (now : Nat) (body : List (JSString × JSValue))
    (n e s m : JSString)
    (hn : get body (str "name") = .string n) (he : get body (str "email") = .string e)
    (hs : get body (str "subject") = .string s) (hm : get body (str "message") = .string m)
    (h : validate E body = .ok .valid)
    (hsave : save ⟨.string n, .string s, .string e, .string m, now⟩ = true)
    (hsend : sendMail ⟨cfg.FROM_EMAIL_USER, cfg.TO_EMAIL_USER, str "New : " ++ s,
      str "Subject: " ++ s ++ str "\nName: " ++ n ++ str "\nEmail: " ++ e
        ++ str "\nMessage: " ++ m⟩ = false) :
    (postContact E cfg save sendMail now body).response =
        some ⟨500, .error (str "Server error")⟩ ∧
      (postContact E cfg save sendMail now body).trace =
        [.save ⟨.string n, .string s, .string e, .string m, now⟩,
         .sendMail ⟨cfg.FROM_EMAIL_USER, cfg.TO_EMAIL_USER, str "New : " ++ s,
          str "Subject: " ++ s ++ str "\nName: " ++ n ++ str "\nEmail: " ++ e
            ++ str "\nMessage: " ++ m⟩] ∧
      ∀ failing : Message → Bool,
        failing ⟨.string n, .string s, .string e, .string m, now⟩ = false →
          (postContact E cfg failing sendMail now body).response =
            (postContact E cfg save sendMail now body).response := by
  refine ⟨?_, ?_, ?_⟩
  · rw [postContact_of_valid_text E cfg save sendMail now body n e s m hn he hs hm h, if_pos hsave,
      hsend]
    rfl
  · rw [postContact_of_valid_text E cfg save sendMail now body n e s m hn he hs hm h, if_pos hsave,
      hsend]
    rfl
  · intro failing hf
    rw [postContact_of_valid_text E cfg save sendMail now body n e s m hn he hs hm h, if_pos hsave,
      postContact_of_valid_text E cfg failing sendMail now body n e s m hn he hs hm h, hf, hsend]
    rfl

/-- Witness of C6 at scenario 1 with a store that accepts and a transport
that refuses. -/
theorem send_failure_run_witness :
    validate Engine.sample annBody = .ok .valid ∧
      (postContact Engine.sample sampleConfig (fun _ => true) (fun _ => false) 5
          annBody).response = some ⟨500, .error (str "Server error")⟩ ∧
      (postContact Engine.sample sampleConfig (fun _ => true) (fun _ => false) 5
          annBody).trace =
        [.save ⟨.string (str "Ann"), .string (str "Hi"), .string (str "ann@example.com"),
          .string (str "Hello"), 5⟩,
         .sendMail ⟨sampleConfig.FROM_EMAIL_USER, sampleConfig.TO_EMAIL_USER,
          str "New : " ++ str "Hi",
          str "Subject: " ++ str "Hi" ++ str "\nName: " ++ str "Ann" ++ str "\nEmail: "
            ++ str "ann@example.com" ++ str "\nMessage: " ++ str "Hello"⟩] ∧
      ∀ failing : Message → Bool,
        failing ⟨.string (str "Ann"), .string (str "Hi"), .string (str "ann@example.com"),
            .string (str "Hello"), 5⟩ = false →
          (postContact Engine.sample sampleConfig failing (fun _ => false) 5 annBody).response =
            (postContact Engine.sample sampleConfig (fun _ => true) (fun _ => false) 5
              annBody).response :=
  ⟨by decide, send_failure_run Engine.sample sampleConfig (fun _ => true) (fun _ => false) 5
    annBody (str "Ann") (str "ann@example.com") (str "Hi") (str "Hello") rfl rfl rfl rfl
    (by decide) rfl rfl⟩

/-- C7: a submission in which one of name, email, subject, message is absent,
`null` or the empty string is answered with status 400 and
`All fields are required`, whatever the other fields contain, and the run
calls neither the store nor the mail transport. -/
theorem missing_field_rejected (E : Engine) (cfg : Config) (save : Message → Bool)
    (sendMail : MailOptions → Bool) (now : Nat) (body : List (JSString × JSValue))
    (h : missingOrEmpty (get body (str "name")) = true ∨
      missingOrEmpty (get body (str "email")) = true ∨
      missingOrEmpty (get body (str "subject")) = true ∨
      missingOrEmpty (get body (str "message")) = true) :
    (postContact E cfg save sendMail now body).response =
        some ⟨400, .error (str "All fields are required")⟩ ∧
      (postContact E cfg save sendMail now body).trace = [] := by
  have hv : validate E body = .ok (.invalid (str "All fields are required")) := by
    apply validate_of_falsy
    rcases h with h | h | h | h
    · exact Or.inl (missingOrEmpty_falsy E _ h)
    · exact Or.inr (Or.inl (missingOrEmpty_falsy E _ h))
    · exact Or.inr (Or.inr (Or.inl (missingOrEmpty_falsy E _ h)))
    · exact Or.inr (Or.inr (Or.inr (missingOrEmpty_falsy E _ h)))
  rw [postContact_of_invalid E cfg save sendMail now body _ hv]
  exact ⟨rfl, rfl⟩

/-- Witness of C7 at scenario 3 of the specification. -/
theorem missing_field_rejected_witness :
    (missingOrEmpty (get (submission (str "") (str "a@b.com") (str "Hi") (str "Hello"))
        (str "name")) = true ∨
      missingOrEmpty (get (submission (str "") (str "a@b.com") (str "Hi") (str "Hello"))
        (str "email")) = true ∨
      missingOrEmpty (get (submission (str "") (str "a@b.com") (str "Hi") (str "Hello"))
        (str "subject")) = true ∨
      missingOrEmpty (get (submission (str "") (str "a@b.com") (str "Hi") (str "Hello"))
        (str "message")) = true) ∧
      (postContact Engine.sample sampleConfig (fun _ => true) (fun _ => true) 0
        (submission (str "") (str "a@b.com") (str "Hi") (str "Hello"))).response =
        some ⟨400, .error (str "All fields are required")⟩ ∧
      (postContact Engine.sample sampleConfig (fun _ => true) (fun _ => true) 0
        (submission (str "") (str "a@b.com") (str "Hi") (str "Hello"))).trace = [] :=
  ⟨Or.inl (by decide), missing_field_rejected Engine.sample sampleConfig (fun _ => true)
    (fun _ => true) 0 (submission (str "") (str "a@b.com") (str "Hi") (str "Hello"))
    (Or.inl (by decide))⟩

/-- C8, amended: when name, subject and message pass the presence check and
the e-mail is a non-empty string that has no `@`, or no `.` after its `@`,
or contains white space, the response is status 400 with
`Invalid email format`, and the run calls neither the store nor the mail
transport. -/
theorem malformed_email_rejected (E : Engine) (cfg : Config) (save : Message → Bool)
    (sendMail : MailOptions → Bool) (now : Nat) (body : List (JSString × JSValue))
    (e : JSString)
    (hn : ToBoolean E (get body (str "name")) = true)
    (hs : ToBoolean E (get body (str "subject")) = true)
    (hm : ToBoolean E (get body (str "message")) = true)
    (he : get body (str "email") = .string e) (hne : e ≠ [])
    (hbad : 64 ∉ e ∨ 46 ∉ domainPart e ∨ ∃ x ∈ e, isWhiteSpace x = true) :
    (postContact E cfg save sendMail now body).response =
        some ⟨400, .error (str "Invalid email format")⟩ ∧
      (postContact E cfg save sendMail now body).trace = [] := by
  have hv : validate E body = .ok (.invalid (str "Invalid email format")) := by
    rw [validate_of_truthy E body hn (by rw [he]; simpa [ToBoolean] using hne) hs hm, he,
      validateEmail_string, regex_test_of_malformed e hbad]
  rw [postContact_of_invalid E cfg save sendMail now body _ hv]
  exact ⟨rfl, rfl⟩

/-- Witness of C8, amended, at scenario 2 of the specification. -/
theorem malformed_email_rejected_witness :
    (64 ∉ str "not-an-email" ∨ 46 ∉ domainPart (str "not-an-email") ∨
        ∃ x ∈ str "not-an-email", isWhiteSpace x = true) ∧
      (postContact Engine.sample sampleConfig (fun _ => true) (fun _ => true) 0
        (submission (str "Ann") (str "not-an-email") (str "Hi") (str "Hello"))).response =
        some ⟨400, .error (str "Invalid email format")⟩ ∧
      (postContact Engine.sample sampleConfig (fun _ => true) (fun _ => true) 0
        (submission (str "Ann") (str "not-an-email") (str "Hi") (str "Hello"))).trace = [] :=
  ⟨Or.inl (by decide), malformed_email_rejected Engine.sample sampleConfig (fun _ => true)
    (fun _ => true) 0 (submission (str "Ann") (str "not-an-email") (str "Hi") (str "Hello"))
    (str "not-an-email") (by decide) (by decide) (by decide) rfl (by decide)
    (Or.inl (by decide))⟩

/-- Counterexample to C8 as stated: a submission whose e-mail has no `@` and
whose name is empty is answered with `All fields are required`, not with
`Invalid email format`. -/
theorem malformed_email_behind_presence_check :
    64 ∉ str "not-an-email" ∧
      (postContact Engine.sample sampleConfig (fun _ => true) (fun _ => true) 0
        (submission (str "") (str "not-an-email") (str "Hi") (str "Hello"))).response =
        some ⟨400, .error (str "All fields are required")⟩ ∧
      (postContact Engine.sample sampleConfig (fun _ => true) (fun _ => true) 0
        (submission (str "") (str "not-an-email") (str "Hi") (str "Hello"))).response ≠
        some ⟨400, .error (str "Invalid email format")⟩ := by
  decide

/-- A message of 501 characters outside the Basic Multilingual Plane: 501
times the surrogate pair of U+1F600. -/
def astralMessage : JSString := (List.replicate 501 [0xD83D, 0xDE00]).flatten

/-- C9, amended: when the four fields pass the presence check, the e-mail
matches the expression and the message is a string, the run is rejected with
`Message must be less than 1000 characters` exactly when the message has
more than 1000 UTF-16 code units, and validation passes exactly when it has
at most 1000; the number of characters never exceeds the number of code
units, so a message of more than 1000 characters is rejected. -/
theorem length_check_counts_code_units (E : Engine) (cfg : Config) (save : Message → Bool)
    (sendMail : MailOptions → Bool) (now : Nat) (body : List (JSString × JSValue))
    (e m : JSString)
    (hn : ToBoolean E (get body (str "name")) = true)
    (hs : ToBoolean E (get body (str "subject")) = true)
    (he : get body (str "email") = .string e) (hre : regex.test e = true)
    (hm : get body (str "message") = .string m) (hm0 : m ≠ []) :
    ((postContact E cfg save sendMail now body).response =
        some ⟨400, .error (str "Message must be less than 1000 characters")⟩ ↔
      m.length > 1000) ∧
    (validate E body = .ok .valid ↔ m.length ≤ 1000) ∧
    codePointCount m ≤ m.length := by
  have he0 : e ≠ [] := by
    rintro rfl
    simp [regex, Regex.test, Regex.nullable, Regex.plus] at hre
  have hv : validate E body =
      if m.length > 1000 then .ok (.invalid (str "Message must be less than 1000 characters"))
      else .ok .valid := by
    rw [validate_of_truthy E body hn (by rw [he]; simpa [ToBoolean] using he0) hs
      (by rw [hm]; simpa [ToBoolean] using hm0), he, hm, validateEmail_string, hre]
    by_cases hl : m.length > 1000
    · simp [lengthGt1000, hl]
    · simp [lengthGt1000, hl]
  refine ⟨?_, ?_, codePointCount_le_length m⟩
  · by_cases hl : m.length > 1000
    · rw [if_pos hl] at hv
      rw [postContact_of_invalid E cfg save sendMail now body _ hv]
      simp [hl]
    · rw [if_neg hl] at hv
      have := postContact_status_of_valid E cfg save sendMail now body hv
        (str "Message must be less than 1000 characters")
      simp [hl, this]
  · by_cases hl : m.length > 1000
    · rw [hv, if_pos hl]
      simp
      omega
    · rw [hv, if_neg hl]
      simp
      omega

/-- Witness of C9, amended, at scenario 1 of the specification. -/
theorem length_check_counts_code_units_witness :
    regex.test (str "ann@example.com") = true ∧
      (((postContact Engine.sample sampleConfig (fun _ => true) (fun _ => true) 0
            annBody).response =
          some ⟨400, .error (str "Message must be less than 1000 characters")⟩ ↔
        (str "Hello").length > 1000) ∧
      (validate Engine.sample annBody = .ok .valid ↔ (str "Hello").length ≤ 1000) ∧
      codePointCount (str "Hello") ≤ (str "Hello").length) :=
  ⟨by decide, length_check_counts_code_units Engine.sample sampleConfig (fun _ => true)
    (fun _ => true) 0 annBody (str "ann@example.com") (str "Hello") (by decide) (by decide) rfl
    (by decide) rfl (by decide)⟩

set_option maxRecDepth 200000 in
/-- Counterexample to C9 as stated: a message of 501 characters, each outside
the Basic Multilingual Plane, has 1002 code units and is rejected as too
long. -/
theorem astral_message_rejected :
    codePointCount astralMessage = 501 ∧ astralMessage.length = 1002 ∧
      (postContact Engine.sample sampleConfig (fun _ => true) (fun _ => true) 0
        (submission (str "Ann") (str "ann@example.com") (str "Hi") astralMessage)).response =
        some ⟨400, .error (str "Message must be less than 1000 characters")⟩ := by
  decide

/-- C10: on a string, `validateEmail` returns the result of the match, and
that is `true` exactly when the string has no white space, exactly one `@`
with at least one character before it, and after it a `.` with at least one
character on each side; `a@.b` and `a@b.` are refused and `a@b..c` is
accepted. -/
theorem validateEmail_characterisation (E : Engine) :
    (∀ e : JSString,
      validateEmail E (.string e) = .ok (regex.test e) ∧
      (validateEmail E (.string e) = .ok true ↔
        (∀ x ∈ e, isWhiteSpace x = false) ∧ e.count 64 = 1 ∧
          ∃ l d, e = l ++ 64 :: d ∧ l ≠ [] ∧
            ∃ b c, d = b ++ 46 :: c ∧ b ≠ [] ∧ c ≠ [])) ∧
    validateEmail E (.string (str "a@.b")) = .ok false ∧
    validateEmail E (.string (str "a@b.")) = .ok false ∧
    validateEmail E (.string (str "a@b..c")) = .ok true := by
  refine ⟨fun e => ⟨rfl, ?_⟩, ?_, ?_, ?_⟩
  · rw [validateEmail_string, ← regex_test_iff_shape e]
    simp
  · rw [validateEmail_string]; decide
  · rw [validateEmail_string]; decide
  · rw [validateEmail_string]; decide

end PortfolioBackend
